import Mathlib

/-!
Shallow embedding of the weather-app core layer (location resolution,
forecast fetch/merge, localStorage cache, classifiers, unit formatters)
together with theorems checking the natural-language specification
against the embedded code.

Conventions of the embedding:
- JavaScript numbers are modelled as rationals; where a function
  distinguishes `null`/`undefined` and `NaN` from ordinary numbers
  (the formatters and the AQI classifier do, via `== null` and
  `Number.isNaN`), the input type is `JNum` below, whose arithmetic
  propagates NaN the way JS does.
- Fields that may be `null`/`undefined` are `Option`s; the JS
  truthiness test on strings (where the empty string is falsy) is
  `truthyStr`.
- `Date.now()` is passed in explicitly as an integer `now` (epoch ms),
  sampled once per call, and `new Date().toISOString()` as a string
  `nowIso`.
- `localStorage` content under the single cache key is modelled as
  `Option (List WeatherCacheEntry)`: `none` is a missing/empty record,
  `some l` the parsed JSON array.  (The JSON-corruption paths of
  `loadWeatherCache` return `[]` and are not otherwise needed here.)
- Fallible async operations (`fetchJson`-based fetchers) are passed in
  as `Except String _` arguments: `.error` models a thrown error.
-/

/-- JavaScript number-or-null input: `jnull` models `null`/`undefined`,
`jnan` models `NaN`, `jnum q` an ordinary (finite) number. -/
inductive JNum where
  | jnull : JNum
  | jnan : JNum
  | jnum : ℚ → JNum
deriving DecidableEq

/-- JavaScript `Math.round`: round half toward positive infinity, that is
`⌊q + 1/2⌋`.  Written on the numerator/denominator as
`⌊(2·num + den) / (2·den)⌋` (an exact identity, since `den > 0`) so that
it evaluates by kernel reduction. -/
def jsMathRound (q : ℚ) : ℤ := (2 * q.num + (q.den : ℤ)).ediv (2 * (q.den : ℤ))

/-- Left-pad a string with zeros to width `w` (used for fraction digits). -/
def padLeftZeros (s : String) (w : ℕ) : String :=
  String.mk (List.replicate (w - s.length) '0') ++ s

/-- JavaScript `Number.prototype.toFixed(digits)` on an exact rational:
the sign is split off first, then the magnitude `|q| = natAbs/den` is
rounded to the nearest multiple of `10 ^ (- digits)`, ties away from
zero: `n = ⌊|q|·10^digits + 1/2⌋ = (2·natAbs·10^digits + den) / (2·den)`
in natural floor division (an exact identity, since `den > 0`). -/
def toFixedStr (q : ℚ) (digits : ℕ) : String :=
  let sign := if q.num < 0 then "-" else ""
  let n := (2 * q.num.natAbs * 10 ^ digits + q.den) / (2 * q.den)
  let ip := n / 10 ^ digits
  let fp := n % 10 ^ digits
  sign ++ toString ip ++
    (if digits = 0 then "" else "." ++ padLeftZeros (toString fp) digits)

/-! ## roadConditions.js -/

/-- Road condition categories (`RoadConditionCategory` in roadConditions.js). -/
inductive RoadConditionCategory where
  | dry | wet | snow_ice_risk | unknown
deriving DecidableEq

/-- The wintry condition-code array from `classifyRoadCondition`
(freezing drizzle, freezing rain, snow / grains, snow showers,
thunderstorms with hail). -/
def wintryCodes : List ℚ := [56, 57, 66, 67, 71, 73, 75, 77, 85, 86, 96, 99]

/-- Embedding of `classifyRoadCondition(temperatureC, precipitationMm,
weatherCode)` from src/services/roadConditions.js. -/
def classifyRoadCondition (temperatureC precipitationMm weatherCode : Option ℚ) :
    RoadConditionCategory :=
  match temperatureC with
  | none => .unknown
  | some t =>
    let precip := precipitationMm.getD 0
    if precip < (0.1 : ℚ) then .dry
    else if t ≤ 0 then .snow_ice_risk
    else if (match weatherCode with
             | some c => wintryCodes.contains c
             | none => false) then .snow_ice_risk
    else if precip ≥ (0.1 : ℚ) then .wet
    else .dry

/-- Reference definition following the words of claim C4: null temperature
gives unknown; null precipitation is treated as 0; precipitation < 0.1
gives dry; otherwise temperature <= 0 gives snow_ice_risk; otherwise a
condition code in the wintry set gives snow_ice_risk; otherwise
precipitation >= 0.1 gives wet; otherwise dry. -/
def roadConditionClaimRef (temperatureC precipitationMm conditionCode : Option ℚ) :
    RoadConditionCategory :=
  match temperatureC with
  | none => .unknown
  | some t =>
    let p := precipitationMm.getD 0
    if p < (0.1 : ℚ) then .dry
    else if t ≤ 0 then .snow_ice_risk
    else if conditionCode.elim false (fun c => decide (c = 56 ∨ c = 57 ∨ c = 66 ∨
        c = 67 ∨ c = 71 ∨ c = 73 ∨ c = 75 ∨ c = 77 ∨ c = 85 ∨ c = 86 ∨
        c = 96 ∨ c = 99)) then .snow_ice_risk
    else if p ≥ (0.1 : ℚ) then .wet
    else .dry

/-! ## airQualityApi.js -/

/-- AQI categories of `classifyUsAqi`. -/
inductive AqiCategory where
  | good | moderate | unhealthy | very_unhealthy | hazardous | unknown
deriving DecidableEq

/-- Result record `{category, summary}` of `classifyUsAqi`. -/
structure AqiClassification where
  category : AqiCategory
  summary : String
deriving DecidableEq

/-- Embedding of `classifyUsAqi(usAqi)` from src/services/airQualityApi.js. -/
def classifyUsAqi : JNum → AqiClassification
  | .jnull => ⟨.unknown, "Air quality unknown"⟩
  | .jnan => ⟨.unknown, "Air quality unknown"⟩
  | .jnum q =>
    let aqi := jsMathRound q
    if aqi ≤ 50 then ⟨.good, "Good (US AQI " ++ toString aqi ++ ")"⟩
    else if aqi ≤ 100 then ⟨.moderate, "Moderate (US AQI " ++ toString aqi ++ ")"⟩
    else if aqi ≤ 150 then
      ⟨.unhealthy, "Unhealthy for sensitive groups (US AQI " ++ toString aqi ++ ")"⟩
    else if aqi ≤ 200 then ⟨.unhealthy, "Unhealthy (US AQI " ++ toString aqi ++ ")"⟩
    else if aqi ≤ 300 then
      ⟨.very_unhealthy, "Very unhealthy (US AQI " ++ toString aqi ++ ")"⟩
    else ⟨.hazardous, "Hazardous (US AQI " ++ toString aqi ++ ")"⟩

/-- Reference category bucketing following the words of claim C5:
null/NaN gives unknown, otherwise the value is rounded to the nearest
integer and bucketed at 50 / 100 / 150 / 200 / 300. -/
def aqiCategoryClaimRef : JNum → AqiCategory
  | .jnull => .unknown
  | .jnan => .unknown
  | .jnum q =>
    let aqi := jsMathRound q
    if aqi ≤ 50 then .good
    else if aqi ≤ 100 then .moderate
    else if aqi ≤ 150 then .unhealthy
    else if aqi ≤ 200 then .unhealthy
    else if aqi ≤ 300 then .very_unhealthy
    else .hazardous

/-! ## units.js -/

/-- The two unit systems of units.js. -/
inductive UnitSystem where
  | metric | imperial
deriving DecidableEq

/-- Embedding of `formatTemperature(tempC, unitSystem)` from units.js.
Only `tempC == null` is checked; a NaN input flows through
`Math.round` (NaN) and the template literal, rendering as "NaN". -/
def formatTemperature : JNum → UnitSystem → String
  | .jnull, _ => "–"
  | .jnan, .metric => "NaN°C"
  | .jnum q, .metric => toString (jsMathRound q) ++ "°C"
  | .jnan, .imperial => "NaN°F"
  | .jnum q, .imperial => toString (jsMathRound (q * 9 / 5 + 32)) ++ "°F"

/-- Embedding of `formatPrecipitation(precipMm, unitSystem)` from units.js.
Only `precipMm == null` is checked; a NaN input flows through `toFixed`,
rendering as "NaN". -/
def formatPrecipitation : JNum → UnitSystem → String
  | .jnull, _ => "–"
  | .jnan, .metric => "NaN mm"
  | .jnum q, .metric => toFixedStr q 1 ++ " mm"
  | .jnan, .imperial => "NaN in"
  | .jnum q, .imperial => toFixedStr (q / (25.4 : ℚ)) 2 ++ " in"

/-- Embedding of `formatWindSpeed(speedKmh, unitSystem)` from units.js;
this one checks both `== null` and `Number.isNaN`. -/
def formatWindSpeed : JNum → UnitSystem → String
  | .jnull, _ => "—"
  | .jnan, _ => "—"
  | .jnum q, .metric => toString (jsMathRound q) ++ " km/h"
  | .jnum q, .imperial => toString (jsMathRound (q / (1.609344 : ℚ))) ++ " mph"

/-- Embedding of `formatVisibility(meters, unitSystem)` from units.js;
this one checks both `== null` and `Number.isNaN`. -/
def formatVisibility : JNum → UnitSystem → String
  | .jnull, _ => "—"
  | .jnan, _ => "—"
  | .jnum q, .metric => toFixedStr (q / 1000) 1 ++ " km"
  | .jnum q, .imperial => toFixedStr (q * (0.000627137 : ℚ)) 1 ++ " mi"

/-! ## weatherApi.js: data model and localStorage cache -/

/-- JavaScript string comparison `a < b`: lexicographic on code units. -/
def jsStrLtList : List Char → List Char → Bool
  | [], [] => false
  | [], _ :: _ => true
  | _ :: _, [] => false
  | a :: as, b :: bs =>
    if a.toNat < b.toNat then true
    else if b.toNat < a.toNat then false
    else jsStrLtList as bs

/-- JavaScript `a < b` on strings. -/
def jsStrLt (a b : String) : Bool := jsStrLtList a.data b.data

/-- JavaScript `a || b` on strings (the empty string is falsy). -/
def jsOrStr (a b : String) : String := if a = "" then b else a

/-- The `{lat, lon}` coordinates record. -/
structure Coords where
  lat : ℚ
  lon : ℚ
deriving DecidableEq

/-- The `current` record of a WeatherState (`{time, temperature, weatherCode}`). -/
structure CurrentWeather where
  time : String
  temperature : ℚ
  weatherCode : ℚ
deriving DecidableEq

/-- The `HourlyAirQuality` record attached to an hourly point. -/
structure AirQualityAttach where
  pm10 : Option ℚ
  pm2_5 : Option ℚ
  dust : Option ℚ
  uvIndex : Option ℚ
  usAqi : Option ℚ
  category : AqiCategory
deriving DecidableEq

/-- The `HourlyPoint` record of weatherApi.js. -/
structure HourlyPoint where
  time : String
  temperature : Option ℚ
  apparentTemperature : Option ℚ
  precipitation : Option ℚ
  humidity : Option ℚ
  windSpeed : Option ℚ
  windDirection : Option ℚ
  windGusts : Option ℚ
  cloudCover : Option ℚ
  visibility : Option ℚ
  uvIndex : Option ℚ
  weatherCode : Option ℚ
  airQuality : Option AirQualityAttach
  airQualitySummary : Option String
deriving DecidableEq

/-- The `DailyPoint` record of weatherApi.js. -/
structure DailyPoint where
  date : String
  tempMax : Option ℚ
  tempMin : Option ℚ
  weatherCode : Option ℚ
  sunrise : Option String
  sunset : Option String
  uvIndexMax : Option ℚ
deriving DecidableEq

/-- The `WeatherState` record of weatherApi.js. -/
structure WeatherState where
  coords : Coords
  locationLabel : String
  timezone : String
  fetchedAt : String
  current : Option CurrentWeather
  hourly : List HourlyPoint
  daily : List DailyPoint
deriving DecidableEq

/-- The `WeatherCacheEntry` record persisted in localStorage. -/
structure WeatherCacheEntry where
  key : String
  fetchedAt : String
  expiresAt : ℤ
  weather : WeatherState
deriving DecidableEq

/-- `WEATHER_CACHE_TTL_MS = 15 * 60 * 1000` (epoch milliseconds). -/
def WEATHER_CACHE_TTL_MS : ℤ := 15 * 60 * 1000

/-- `WEATHER_CACHE_MAX_ENTRIES = 5`. -/
def WEATHER_CACHE_MAX_ENTRIES : ℕ := 5

/-- Embedding of `loadWeatherCache()`: reads the persisted entry list and
keeps only entries with `e.expiresAt > now`.  `none` models a missing
storage record (and the JSON-corruption catch paths, which also yield
`[]`); array elements are modelled as well-typed entries, so the JS
truthiness guard `e &&` on each element is always true. -/
def loadWeatherCache (store : Option (List WeatherCacheEntry)) (now : ℤ) :
    List WeatherCacheEntry :=
  match store with
  | none => []
  | some parsed => parsed.filter (fun e => decide (e.expiresAt > now))

/-- Embedding of `saveWeatherCache(entries)`: persists the list (storage
is modelled as available; the unavailable-storage no-op path is outside
the claims). -/
def saveWeatherCache (entries : List WeatherCacheEntry) :
    Option (List WeatherCacheEntry) :=
  some entries

/-- Embedding of `getCachedWeather(key)` from weatherApi.js.  `Date.now()`
is sampled as the single instant `now` (the function calls it twice a few
microseconds apart; modelling both samples as equal).  Returns the
looked-up snapshot (or null) together with the persisted list after the
call. -/
def getCachedWeather (key : String) (store : Option (List WeatherCacheEntry))
    (now : ℤ) : Option WeatherState × Option (List WeatherCacheEntry) :=
  let entries := loadWeatherCache store now
  match entries.find? (fun e => e.key == key) with
  | none => (none, store)
  | some entry =>
    if entry.expiresAt ≤ now then
      (none, saveWeatherCache (entries.filter (fun e => !(e.key == key))))
    else
      (some entry.weather, store)

/-- The cache-entry object literal pushed by `setCachedWeather`:
`{key, fetchedAt: weather.fetchedAt || new Date().toISOString(), expiresAt, weather}`. -/
def newWeatherCacheEntry (key : String) (weather : WeatherState) (now : ℤ)
    (nowIso : String) : WeatherCacheEntry :=
  { key := key
    fetchedAt := jsOrStr weather.fetchedAt nowIso
    expiresAt := now + WEATHER_CACHE_TTL_MS
    weather := weather }

/-- Insertion step of the comparison sort
`entries.sort((a, b) => (a.fetchedAt < b.fetchedAt ? -1 : 1))`. -/
def insertByFetchedAt (e : WeatherCacheEntry) :
    List WeatherCacheEntry → List WeatherCacheEntry
  | [] => [e]
  | h :: t =>
    if jsStrLt e.fetchedAt h.fetchedAt then e :: h :: t
    else h :: insertByFetchedAt e t

/-- The `entries.sort(...)` call of `setCachedWeather`, modelled as an
insertion sort driven by the source's comparator (which returns -1
exactly when `a.fetchedAt < b.fetchedAt`); ECMAScript leaves the order of
tied elements under this comparator implementation-defined, and any
comparison sort agrees with this model on tie-free inputs. -/
def sortByFetchedAt : List WeatherCacheEntry → List WeatherCacheEntry
  | [] => []
  | h :: t => insertByFetchedAt h (sortByFetchedAt t)

/-- Embedding of `setCachedWeather(key, weather)` from weatherApi.js;
returns the persisted entry list after the call. -/
def setCachedWeather (key : String) (weather : WeatherState) (now : ℤ)
    (nowIso : String) (store : Option (List WeatherCacheEntry)) :
    List WeatherCacheEntry :=
  let entries := (loadWeatherCache store now).filter (fun e => !(e.key == key))
  let entries := entries ++ [newWeatherCacheEntry key weather now nowIso]
  if entries.length > WEATHER_CACHE_MAX_ENTRIES then
    (sortByFetchedAt entries).drop (entries.length - WEATHER_CACHE_MAX_ENTRIES)
  else
    entries

/-! ## Order facts about the comparator and the sort -/

theorem jsStrLtList_trans : ∀ a b c : List Char, jsStrLtList a b = true →
    jsStrLtList b c = true → jsStrLtList a c = true := by
  intro a
  induction a with
  | nil =>
    intro b c hab hbc
    cases b with
    | nil => simp [jsStrLtList] at hab
    | cons b bs =>
      cases c with
      | nil => simp [jsStrLtList] at hbc
      | cons c cs => simp [jsStrLtList]
  | cons a as ih =>
    intro b c hab hbc
    cases b with
    | nil => simp [jsStrLtList] at hab
    | cons b bs =>
      cases c with
      | nil => simp [jsStrLtList] at hbc
      | cons c cs =>
        simp only [jsStrLtList] at hab hbc ⊢
        split_ifs at hab hbc ⊢ <;>
          first
          | rfl
          | omega
          | (exact ih bs cs hab hbc)

theorem jsStrLtList_asymm : ∀ a b : List Char, jsStrLtList a b = true →
    jsStrLtList b a = true → False := by
  intro a
  induction a with
  | nil =>
    intro b hab hba
    cases b with
    | nil => simp [jsStrLtList] at hab
    | cons b bs => simp [jsStrLtList] at hba
  | cons a as ih =>
    intro b hab hba
    cases b with
    | nil => simp [jsStrLtList] at hab
    | cons b bs =>
      simp only [jsStrLtList] at hab hba
      split_ifs at hab hba <;>
        first
        | omega
        | (exact ih bs hab hba)

/-- Sortedness relation produced by the fetch-time comparator: `a` may
come before `b` when the comparator does not strictly order `b` first. -/
def FetchLe (a b : WeatherCacheEntry) : Prop :=
  jsStrLt b.fetchedAt a.fetchedAt = false

theorem insertByFetchedAt_perm (e : WeatherCacheEntry)
    (l : List WeatherCacheEntry) : List.Perm (insertByFetchedAt e l) (e :: l) := by
  induction l with
  | nil => exact List.Perm.refl _
  | cons h t ih =>
    simp only [insertByFetchedAt]
    split
    · exact List.Perm.refl _
    · exact (ih.cons h).trans (List.Perm.swap e h t)

theorem sortByFetchedAt_perm (l : List WeatherCacheEntry) :
    List.Perm (sortByFetchedAt l) l := by
  induction l with
  | nil => exact List.Perm.refl _
  | cons h t ih => exact (insertByFetchedAt_perm h (sortByFetchedAt t)).trans (ih.cons h)

theorem insertByFetchedAt_pairwise (e : WeatherCacheEntry)
    (l : List WeatherCacheEntry) (h : l.Pairwise FetchLe) :
    (insertByFetchedAt e l).Pairwise FetchLe := by
  induction l with
  | nil => simp [insertByFetchedAt]
  | cons hd t ih =>
    obtain ⟨hhd, ht⟩ := List.pairwise_cons.mp h
    simp only [insertByFetchedAt]
    by_cases hc : jsStrLt e.fetchedAt hd.fetchedAt = true
    · rw [if_pos hc]
      refine List.Pairwise.cons ?_ h
      intro x hx
      rcases List.mem_cons.mp hx with hx | hx
      · subst hx
        unfold FetchLe
        by_contra hb
        exact jsStrLtList_asymm _ _ (by simpa [jsStrLt, Bool.not_eq_false] using hb) hc
      · unfold FetchLe
        by_contra hb
        have hxe : jsStrLt x.fetchedAt e.fetchedAt = true := by
          simpa [Bool.not_eq_false] using hb
        have hxhd : jsStrLt x.fetchedAt hd.fetchedAt = true :=
          jsStrLtList_trans _ _ _ hxe hc
        have := hhd x hx
        rw [FetchLe] at this
        simp [hxhd] at this
    · rw [if_neg hc]
      refine List.Pairwise.cons ?_ (ih ht)
      intro x hx
      have hx' : x ∈ e :: t := (insertByFetchedAt_perm e t).mem_iff.mp hx
      rcases List.mem_cons.mp hx' with hx' | hx'
      · subst hx'
        unfold FetchLe
        simpa using hc
      · exact hhd x hx'

theorem sortByFetchedAt_pairwise (l : List WeatherCacheEntry) :
    (sortByFetchedAt l).Pairwise FetchLe := by
  induction l with
  | nil => simp [sortByFetchedAt]
  | cons h t ih => exact insertByFetchedAt_pairwise h (sortByFetchedAt t) ih

/-! ## Theorems for C4, C5, C7 -/

/-- C4: `classifyRoadCondition` equals the reference definition applying
the claimed rules in order (null temperature unknown; null precipitation
as 0; precipitation < 0.1 dry; then freezing temperature, then wintry
condition code, then wet, else dry); in particular every positive
temperature with precipitation >= 0.1 and wintry code 71 classifies as
snow_ice_risk. -/
theorem classifyRoadCondition_matches_claim :
    (∀ t p c, classifyRoadCondition t p c = roadConditionClaimRef t p c) ∧
    (∀ t p : ℚ, 0 < t → (0.1 : ℚ) ≤ p →
      classifyRoadCondition (some t) (some p) (some 71) = .snow_ice_risk) := by
  constructor
  · intro t p c
    cases t with
    | none => rfl
    | some t =>
      cases c with
      | none => rfl
      | some cc =>
        have hb : wintryCodes.contains cc = decide (cc = 56 ∨ cc = 57 ∨ cc = 66 ∨
            cc = 67 ∨ cc = 71 ∨ cc = 73 ∨ cc = 75 ∨ cc = 77 ∨ cc = 85 ∨ cc = 86 ∨
            cc = 96 ∨ cc = 99) := by
          simp [wintryCodes, List.contains, eq_comm]
        simp only [classifyRoadCondition, roadConditionClaimRef, Option.elim, hb]
  · intro t p ht hp
    have h1 : ¬ (p < (0.1 : ℚ)) := not_lt.mpr hp
    have h2 : ¬ (t ≤ (0 : ℚ)) := not_le.mpr ht
    simp [classifyRoadCondition, h1, h2, wintryCodes]

/-- Witness for C4 at the spec's example `classifyRoadCondition(5, 1.0, 71)`. -/
theorem classifyRoadCondition_matches_claim_witness :
    (0 : ℚ) < 5 ∧ (0.1 : ℚ) ≤ 1 ∧
    classifyRoadCondition (some 5) (some 1) (some 71) = .snow_ice_risk :=
  ⟨by norm_num, by norm_num,
    classifyRoadCondition_matches_claim.2 5 1 (by norm_num) (by norm_num)⟩

/-- C5: `classifyUsAqi` returns category unknown with summary "Air quality
unknown" on null/NaN, otherwise buckets the rounded value per the claimed
thresholds (the 101–150 bucket labelled for sensitive groups), and in every
non-unknown case the summary string contains the rounded numeric AQI. -/
theorem classifyUsAqi_matches_claim :
    (∀ x, (classifyUsAqi x).category = aqiCategoryClaimRef x) ∧
    (classifyUsAqi .jnull = ⟨.unknown, "Air quality unknown"⟩) ∧
    (classifyUsAqi .jnan = ⟨.unknown, "Air quality unknown"⟩) ∧
    (∀ q : ℚ, 100 < jsMathRound q → jsMathRound q ≤ 150 →
      (classifyUsAqi (.jnum q)).summary =
        "Unhealthy for sensitive groups (US AQI " ++ toString (jsMathRound q) ++ ")") ∧
    (∀ q : ℚ, ∃ l r, (classifyUsAqi (.jnum q)).summary =
        l ++ toString (jsMathRound q) ++ r) := by
  refine ⟨?_, rfl, rfl, ?_, ?_⟩
  · intro x
    cases x with
    | jnull => rfl
    | jnan => rfl
    | jnum q =>
      simp only [classifyUsAqi, aqiCategoryClaimRef]
      split_ifs <;> rfl
  · intro q h1 h2
    simp only [classifyUsAqi]
    split_ifs <;> first | rfl | omega
  · intro q
    simp only [classifyUsAqi]
    split_ifs
    · exact ⟨"Good (US AQI ", ")", rfl⟩
    · exact ⟨"Moderate (US AQI ", ")", rfl⟩
    · exact ⟨"Unhealthy for sensitive groups (US AQI ", ")", rfl⟩
    · exact ⟨"Unhealthy (US AQI ", ")", rfl⟩
    · exact ⟨"Very unhealthy (US AQI ", ")", rfl⟩
    · exact ⟨"Hazardous (US AQI ", ")", rfl⟩

/-- Witness for C5 at the spec's example `classifyUsAqi(150)`. -/
theorem classifyUsAqi_matches_claim_witness :
    100 < jsMathRound (150 : ℚ) ∧ jsMathRound (150 : ℚ) ≤ 150 ∧
    (classifyUsAqi (.jnum 150)).summary =
      "Unhealthy for sensitive groups (US AQI " ++ toString (jsMathRound (150 : ℚ)) ++ ")" := by
  have h : jsMathRound (150 : ℚ) = 150 := by decide
  exact ⟨by omega, by omega,
    classifyUsAqi_matches_claim.2.2.2.1 150 (by omega) (by omega)⟩

/-- C7 counterexample: `formatTemperature` renders NaN as "NaN°C", not as
either dash placeholder, because it only checks `== null`. -/
theorem formatTemperature_nan_counterexample :
    formatTemperature .jnan .metric = "NaN°C" ∧
    formatTemperature .jnan .metric ≠ "–" ∧
    formatTemperature .jnan .metric ≠ "—" := by
  refine ⟨rfl, ?_, ?_⟩ <;> decide

/-- C7 amended: every formatter is a total function (never throws); a null
input always yields the dash placeholder; `formatWindSpeed` and
`formatVisibility` also yield the placeholder for NaN, while
`formatTemperature` and `formatPrecipitation` render NaN numerically, as
"NaN°C" / "NaN°F" / "NaN mm" / "NaN in". -/
theorem formatters_null_nan_behavior :
    (∀ u, formatTemperature .jnull u = "–") ∧
    (formatTemperature .jnan .metric = "NaN°C") ∧
    (formatTemperature .jnan .imperial = "NaN°F") ∧
    (∀ u, formatPrecipitation .jnull u = "–") ∧
    (formatPrecipitation .jnan .metric = "NaN mm") ∧
    (formatPrecipitation .jnan .imperial = "NaN in") ∧
    (∀ u, formatWindSpeed .jnull u = "—") ∧
    (∀ u, formatWindSpeed .jnan u = "—") ∧
    (∀ u, formatVisibility .jnull u = "—") ∧
    (∀ u, formatVisibility .jnan u = "—") :=
  ⟨fun u => by cases u <;> rfl, rfl, rfl,
   fun u => by cases u <;> rfl, rfl, rfl,
   fun u => by cases u <;> rfl, fun u => by cases u <;> rfl,
   fun u => by cases u <;> rfl, fun u => by cases u <;> rfl⟩

/-! ## Theorems for C1, C2, C3 (cache get/set) -/

/-- Helper: when no live entry matches the key, the get call returns null
and leaves the persisted store untouched. -/
theorem getCachedWeather_miss (key : String)
    (store : Option (List WeatherCacheEntry)) (now : ℤ)
    (h : ∀ e ∈ loadWeatherCache store now, e.key ≠ key) :
    getCachedWeather key store now = (none, store) := by
  have hfind : (loadWeatherCache store now).find? (fun e => e.key == key) = none := by
    rw [List.find?_eq_none]
    intro e he
    simpa using h e he
  simp [getCachedWeather, hfind]

/-- C1: `getCachedWeather` never returns an entry that is expired at the
moment of the call: if every persisted entry carrying the requested key
has `expiresAt <= now`, the call returns null. -/
theorem getCachedWeather_never_returns_expired
    (store : List WeatherCacheEntry) (key : String) (now : ℤ)
    (h : ∀ e ∈ store, e.key = key → e.expiresAt ≤ now) :
    (getCachedWeather key (some store) now).1 = none := by
  have hmiss : ∀ e ∈ loadWeatherCache (some store) now, e.key ≠ key := by
    intro e he hk
    simp only [loadWeatherCache, List.mem_filter, decide_eq_true_eq] at he
    exact absurd (h e he.1 hk) (by omega)
  rw [getCachedWeather_miss key (some store) now hmiss]

/-- A concrete weather snapshot used by the cache witnesses. -/
def sampleWeather : WeatherState :=
  { coords := { lat := 0, lon := 0 }
    locationLabel := "Sample"
    timezone := "UTC"
    fetchedAt := "2025-01-02T00:00:00.000Z"
    current := none
    hourly := []
    daily := [] }

/-- A persisted entry that expired at epoch instant 5. -/
def expiredEntry : WeatherCacheEntry :=
  { key := "query:denver"
    fetchedAt := "2025-01-01T00:00:00.000Z"
    expiresAt := 5
    weather := sampleWeather }

/-- Witness for C1: at time 10, the store holding only `expiredEntry`
(expired at 5) yields null. -/
theorem getCachedWeather_never_returns_expired_witness :
    (∀ e ∈ [expiredEntry], e.key = "query:denver" → e.expiresAt ≤ 10) ∧
    (getCachedWeather "query:denver" (some [expiredEntry]) 10).1 = none :=
  ⟨by decide, getCachedWeather_never_returns_expired [expiredEntry]
    "query:denver" 10 (by decide)⟩

/-- C3 counterexample: a get call that discovers the expired entry does
NOT remove it from persisted storage.  `loadWeatherCache` has already
filtered the expired entry out of the in-memory list, so `find?` misses
and the write-back branch of `getCachedWeather` is unreachable: the
persisted list after the call still contains the expired entry. -/
theorem getCachedWeather_no_writeback_counterexample :
    expiredEntry.expiresAt ≤ 10 ∧
    (getCachedWeather "query:denver" (some [expiredEntry]) 10).1 = none ∧
    (getCachedWeather "query:denver" (some [expiredEntry]) 10).2 =
      some [expiredEntry] := by
  refine ⟨by decide, rfl, rfl⟩

/-- C3 amended: when every persisted entry carrying the requested key is
expired, the get call returns null and leaves the persisted list exactly
as it was; the expired entry is dropped only from the in-memory list, and
is removed from persistence only by a later set operation. -/
theorem getCachedWeather_expired_leaves_store
    (store : List WeatherCacheEntry) (key : String) (now : ℤ)
    (h : ∀ e ∈ store, e.key = key → e.expiresAt ≤ now) :
    getCachedWeather key (some store) now = (none, some store) := by
  have hmiss : ∀ e ∈ loadWeatherCache (some store) now, e.key ≠ key := by
    intro e he hk
    simp only [loadWeatherCache, List.mem_filter, decide_eq_true_eq] at he
    exact absurd (h e he.1 hk) (by omega)
  exact getCachedWeather_miss key (some store) now hmiss

/-- Witness for the C3 amended theorem at the counterexample's input. -/
theorem getCachedWeather_expired_leaves_store_witness :
    (∀ e ∈ [expiredEntry], e.key = "query:denver" → e.expiresAt ≤ 10) ∧
    getCachedWeather "query:denver" (some [expiredEntry]) 10 =
      (none, some [expiredEntry]) :=
  ⟨by decide, getCachedWeather_expired_leaves_store [expiredEntry]
    "query:denver" 10 (by decide)⟩

/-- C2: starting from a persisted cache of exactly 5 unexpired entries
with pairwise-distinct keys, a put under a 6th distinct key leaves
exactly 5 entries, the discarded entry being the unique one with the
oldest `fetchedAt` among the six; moreover every put leaves at most 5
entries, whatever the prior state. -/
theorem setCachedWeather_eviction :
    (∀ (store : List WeatherCacheEntry) (key : String) (weather : WeatherState)
        (now : ℤ) (nowIso : String) (emin : WeatherCacheEntry),
      store.length = 5 →
      store.Pairwise (fun a b => a.key ≠ b.key) →
      (∀ e ∈ store, e.key ≠ key) →
      (∀ e ∈ store, now < e.expiresAt) →
      emin ∈ store ++ [newWeatherCacheEntry key weather now nowIso] →
      (∀ e ∈ store ++ [newWeatherCacheEntry key weather now nowIso],
        e ≠ emin → jsStrLt emin.fetchedAt e.fetchedAt = true) →
      (setCachedWeather key weather now nowIso (some store)).length = 5 ∧
      emin ∉ setCachedWeather key weather now nowIso (some store) ∧
      (∀ e ∈ store ++ [newWeatherCacheEntry key weather now nowIso],
        e ≠ emin → e ∈ setCachedWeather key weather now nowIso (some store))) ∧
    (∀ (key : String) (weather : WeatherState) (now : ℤ) (nowIso : String)
        (store : Option (List WeatherCacheEntry)),
      (setCachedWeather key weather now nowIso store).length ≤ 5) := by
  constructor
  · intro store key weather now nowIso emin h5 hkeys hnotkey hunexp hmem hminlt
    have hload : loadWeatherCache (some store) now = store := by
      simp only [loadWeatherCache]
      rw [List.filter_eq_self]
      intro e he
      simpa using hunexp e he
    have hfilter : store.filter (fun e => !(e.key == key)) = store := by
      rw [List.filter_eq_self]
      intro e he
      simpa using hnotkey e he
    set N := newWeatherCacheEntry key weather now nowIso with hN
    have hlen6 : (store ++ [N]).length = 6 := by simp [h5]
    have hresult : setCachedWeather key weather now nowIso (some store) =
        (sortByFetchedAt (store ++ [N])).drop 1 := by
      simp only [setCachedWeather, hload, hfilter, ← hN, hlen6,
        WEATHER_CACHE_MAX_ENTRIES]
      norm_num
    have hperm := sortByFetchedAt_perm (store ++ [N])
    have hlen : (sortByFetchedAt (store ++ [N])).length = 6 := by
      rw [hperm.length_eq, hlen6]
    obtain ⟨h0, tail, hcons⟩ : ∃ h0 tail,
        sortByFetchedAt (store ++ [N]) = h0 :: tail := by
      cases hs : sortByFetchedAt (store ++ [N]) with
      | nil => rw [hs] at hlen; simp at hlen
      | cons a b => exact ⟨a, b, rfl⟩
    have hpair := sortByFetchedAt_pairwise (store ++ [N])
    rw [hcons] at hpair hperm hlen
    have hh0 : h0 = emin := by
      by_contra hne
      have hh0mem : h0 ∈ store ++ [N] := hperm.mem_iff.mp (List.mem_cons_self _ _)
      have hlt := hminlt h0 hh0mem hne
      have hemem : emin ∈ h0 :: tail := hperm.mem_iff.mpr hmem
      rcases List.mem_cons.mp hemem with he | he
      · exact hne he.symm
      · have hle := (List.pairwise_cons.mp hpair).1 emin he
        rw [FetchLe] at hle
        rw [hle] at hlt
        exact Bool.false_ne_true hlt
    rw [hh0] at hcons hperm hpair
    have hnd : (store ++ [N]).Nodup := by
      rw [List.nodup_append]
      refine ⟨hkeys.imp (fun hab heq => hab (congrArg WeatherCacheEntry.key heq)),
        List.nodup_singleton _, ?_⟩
      intro a ha hb
      have hbN : a = N := by simpa using hb
      exact hnotkey a ha (by rw [hbN, hN]; rfl)
    have hndSorted : (emin :: tail).Nodup := hperm.nodup_iff.mpr hnd
    have hnotintail : emin ∉ tail := (List.nodup_cons.mp hndSorted).1
    have htail5 : tail.length = 5 := by
      simp only [List.length_cons] at hlen
      omega
    refine ⟨?_, ?_, ?_⟩
    · rw [hresult, hcons]
      simpa using htail5
    · rw [hresult, hcons]
      simpa using hnotintail
    · intro e he hene
      rw [hresult, hcons]
      have hmem2 : e ∈ emin :: tail := hperm.mem_iff.mpr he
      rcases List.mem_cons.mp hmem2 with h | h
      · exact absurd h hene
      · simpa using h
  · intro key weather now nowIso store
    simp only [setCachedWeather]
    split
    · rename_i h
      rw [List.length_drop, (sortByFetchedAt_perm _).length_eq]
      simp only [WEATHER_CACHE_MAX_ENTRIES] at h ⊢
      omega
    · rename_i h
      simp only [WEATHER_CACHE_MAX_ENTRIES, gt_iff_lt, not_lt] at h
      exact h

/-- A live cache entry used by the eviction witness. -/
def wEntry (k f : String) : WeatherCacheEntry :=
  { key := k, fetchedAt := f, expiresAt := 1000000, weather := sampleWeather }

/-- A full 5-entry cache with pairwise-distinct keys and distinct fetch times. -/
def evictionStore : List WeatherCacheEntry :=
  [wEntry "k1" "2025-01-01T00:00:01.000Z",
   wEntry "k2" "2025-01-01T00:00:02.000Z",
   wEntry "k3" "2025-01-01T00:00:03.000Z",
   wEntry "k4" "2025-01-01T00:00:04.000Z",
   wEntry "k5" "2025-01-01T00:00:05.000Z"]

/-- Witness for C2: putting a 6th distinct key "k6" into the full
5-entry store discards exactly the oldest-by-fetchedAt entry "k1". -/
theorem setCachedWeather_eviction_witness :
    evictionStore.length = 5 ∧
    evictionStore.Pairwise (fun a b => a.key ≠ b.key) ∧
    (∀ e ∈ evictionStore, e.key ≠ "k6") ∧
    (∀ e ∈ evictionStore, (0 : ℤ) < e.expiresAt) ∧
    wEntry "k1" "2025-01-01T00:00:01.000Z" ∈
      evictionStore ++ [newWeatherCacheEntry "k6" sampleWeather 0 "2025-01-02T00:00:00.000Z"] ∧
    (∀ e ∈ evictionStore ++ [newWeatherCacheEntry "k6" sampleWeather 0 "2025-01-02T00:00:00.000Z"],
      e ≠ wEntry "k1" "2025-01-01T00:00:01.000Z" →
      jsStrLt (wEntry "k1" "2025-01-01T00:00:01.000Z").fetchedAt e.fetchedAt = true) ∧
    (setCachedWeather "k6" sampleWeather 0 "2025-01-02T00:00:00.000Z"
      (some evictionStore)).length = 5 ∧
    wEntry "k1" "2025-01-01T00:00:01.000Z" ∉
      setCachedWeather "k6" sampleWeather 0 "2025-01-02T00:00:00.000Z"
        (some evictionStore) := by
  have happ := setCachedWeather_eviction.1 evictionStore "k6" sampleWeather 0
    "2025-01-02T00:00:00.000Z" (wEntry "k1" "2025-01-01T00:00:01.000Z")
    (by decide) (by decide) (by decide) (by decide) (by decide) (by decide)
  exact ⟨by decide, by decide, by decide, by decide, by decide, by decide,
    happ.1, happ.2.1⟩

/-! ## weatherApi.js: forecast parsing, air-quality merge, fetch flows -/

/-- The `hourly` block of the Open-Meteo forecast response: parallel
arrays keyed by variable name; any array may be absent (`none`) and any
element may be null. -/
structure ForecastHourly where
  time : Option (List String)
  temperature_2m : Option (List (Option ℚ))
  apparent_temperature : Option (List (Option ℚ))
  precipitation : Option (List (Option ℚ))
  relative_humidity_2m : Option (List (Option ℚ))
  wind_speed_10m : Option (List (Option ℚ))
  wind_direction_10m : Option (List (Option ℚ))
  wind_gusts_10m : Option (List (Option ℚ))
  cloudcover : Option (List (Option ℚ))
  visibility : Option (List (Option ℚ))
  uv_index : Option (List (Option ℚ))
  weathercode : Option (List (Option ℚ))
deriving DecidableEq

/-- The `daily` block of the forecast response. -/
structure ForecastDaily where
  time : Option (List String)
  temperature_2m_max : Option (List (Option ℚ))
  temperature_2m_min : Option (List (Option ℚ))
  weathercode : Option (List (Option ℚ))
  sunrise : Option (List (Option String))
  sunset : Option (List (Option String))
  uv_index_max : Option (List (Option ℚ))
deriving DecidableEq

/-- The parsed JSON body of a successful forecast response. -/
structure ForecastData where
  timezone : String
  current_weather : Option CurrentWeather
  hourly : Option ForecastHourly
  daily : Option ForecastDaily
deriving DecidableEq

/-- Embedding of `safeArrVal(arr, i)`: `Array.isArray(arr) ? arr[i] ?? null : null`. -/
def safeArrVal {α : Type} (arr : Option (List (Option α))) (i : ℕ) : Option α :=
  match arr with
  | none => none
  | some l => l.getD i none

/-- The `{}` fallback of `data.hourly || {}`. -/
def emptyForecastHourly : ForecastHourly :=
  ⟨none, none, none, none, none, none, none, none, none, none, none, none⟩

/-- The `{}` fallback of `data.daily || {}`. -/
def emptyForecastDaily : ForecastDaily :=
  ⟨none, none, none, none, none, none, none⟩

/-- The hourly-point construction of `fetchWeatherForCoords`:
`hourlyTimes.map((time, i) => ({...}))` with `airQuality: null,
airQualitySummary: null`. -/
def buildHourlyPoints (hourlyData : Option ForecastHourly) : List HourlyPoint :=
  let hd := hourlyData.getD emptyForecastHourly
  let hourlyTimes := match hd.time with
    | some l => l
    | none => []
  hourlyTimes.enum.map (fun it =>
    { time := it.2
      temperature := safeArrVal hd.temperature_2m it.1
      apparentTemperature := safeArrVal hd.apparent_temperature it.1
      precipitation := safeArrVal hd.precipitation it.1
      humidity := safeArrVal hd.relative_humidity_2m it.1
      windSpeed := safeArrVal hd.wind_speed_10m it.1
      windDirection := safeArrVal hd.wind_direction_10m it.1
      windGusts := safeArrVal hd.wind_gusts_10m it.1
      cloudCover := safeArrVal hd.cloudcover it.1
      visibility := safeArrVal hd.visibility it.1
      uvIndex := safeArrVal hd.uv_index it.1
      weatherCode := safeArrVal hd.weathercode it.1
      airQuality := none
      airQualitySummary := none })

/-- The daily-point construction of `fetchWeatherForCoords`. -/
def buildDailyPoints (dailyData : Option ForecastDaily) : List DailyPoint :=
  let dd := dailyData.getD emptyForecastDaily
  let dailyTimes := match dd.time with
    | some l => l
    | none => []
  dailyTimes.enum.map (fun it =>
    { date := it.2
      tempMax := safeArrVal dd.temperature_2m_max it.1
      tempMin := safeArrVal dd.temperature_2m_min it.1
      weatherCode := safeArrVal dd.weathercode it.1
      sunrise := safeArrVal dd.sunrise it.1
      sunset := safeArrVal dd.sunset it.1
      uvIndexMax := safeArrVal dd.uv_index_max it.1 })

/-- One value of the map returned by `fetchAirQuality` (an
`HourlyAirQuality` plus its summary string). -/
structure AqSample where
  pm10 : Option ℚ
  pm2_5 : Option ℚ
  dust : Option ℚ
  uvIndex : Option ℚ
  usAqi : Option ℚ
  category : AqiCategory
  summary : String
deriving DecidableEq

/-- The air-quality merge loop of `fetchWeatherForCoords`: on a thrown
air-quality fetch (`.error`) the hourly list is left untouched (the catch
block only logs); on success each point whose exact timestamp string is a
key of the map gets the sample attached (`if (!aq) continue` skips
missing keys). -/
def mergeAirQuality (hourly : List HourlyPoint)
    (aq : Except String (List (String × AqSample))) : List HourlyPoint :=
  match aq with
  | .error _ => hourly
  | .ok m =>
    hourly.map (fun point =>
      match m.lookup point.time with
      | none => point
      | some s =>
        { point with
          airQuality := some
            { pm10 := s.pm10
              pm2_5 := s.pm2_5
              dust := s.dust
              uvIndex := s.uvIndex
              usAqi := s.usAqi
              category := s.category }
          airQualitySummary := some s.summary })

/-- Embedding of `makeCoordsCacheKey(lat, lon)`. -/
def makeCoordsCacheKey (lat lon : ℚ) : String :=
  "coords:" ++ toFixedStr lat 4 ++ "," ++ toFixedStr lon 4

/-- Embedding of `makeQueryCacheKey(query)`. -/
def makeQueryCacheKey (query : String) : String :=
  "query:" ++ query.trim.toLower

/-- The WeatherState object literal built by `fetchWeatherForCoords`
before the air-quality merge (`fetchedAt: new Date().toISOString()` is
the parameter `nowIso`). -/
def buildWeatherState (lat lon : ℚ) (labelOverride : Option String)
    (data : ForecastData) (nowIso : String) : WeatherState :=
  { coords := { lat := lat, lon := lon }
    locationLabel := labelOverride.getD (toFixedStr lat 2 ++ ", " ++ toFixedStr lon 2)
    timezone := data.timezone
    fetchedAt := nowIso
    current := data.current_weather
    hourly := buildHourlyPoints data.hourly
    daily := buildDailyPoints data.daily }

/-- Embedding of `fetchWeatherForCoords(lat, lon, labelOverride)`.  The
forecast fetch and the air-quality fetch are passed in as `Except`
results (`.error` models a thrown `fetchJson`); returns the produced
snapshot together with the persisted cache after the call, or `.error`
when the function itself throws. -/
def fetchWeatherForCoords (lat lon : ℚ) (labelOverride : Option String)
    (forecast : Except String ForecastData)
    (aq : Except String (List (String × AqSample)))
    (now : ℤ) (nowIso : String) (store : Option (List WeatherCacheEntry)) :
    Except String (WeatherState × Option (List WeatherCacheEntry)) :=
  let cacheKey := makeCoordsCacheKey lat lon
  match getCachedWeather cacheKey store now with
  | (some cached, store1) =>
    .ok ({ cached with locationLabel := labelOverride.getD cached.locationLabel },
      store1)
  | (none, store1) =>
    match forecast with
    | .error e => .error e
    | .ok data =>
      let base := buildWeatherState lat lon labelOverride data nowIso
      let weather := { base with hourly := mergeAirQuality base.hourly aq }
      .ok (weather, some (setCachedWeather cacheKey weather now nowIso store1))

/-- The `{lat, lon, label}` result of `geocodeLocation`. -/
structure GeocodedLocation where
  lat : ℚ
  lon : ℚ
  label : String
deriving DecidableEq

/-- Embedding of `fetchWeatherForQuery(query)`: looks up the normalized
query key, and on a miss geocodes, delegates to `fetchWeatherForCoords`,
and caches the snapshot again under the query key. -/
def fetchWeatherForQuery (query : String)
    (geo : Except String GeocodedLocation)
    (forecast : Except String ForecastData)
    (aq : Except String (List (String × AqSample)))
    (now : ℤ) (nowIso : String) (store : Option (List WeatherCacheEntry)) :
    Except String (WeatherState × Option (List WeatherCacheEntry)) :=
  let normalized := query.trim
  let cacheKey := makeQueryCacheKey normalized
  match getCachedWeather cacheKey store now with
  | (some cached, store1) => .ok (cached, store1)
  | (none, store1) =>
    match geo with
    | .error e => .error e
    | .ok g =>
      match fetchWeatherForCoords g.lat g.lon (some g.label) forecast aq
          now nowIso store1 with
      | .error e => .error e
      | .ok (weather, store2) =>
        .ok (weather, some (setCachedWeather cacheKey weather now nowIso store2))

/-- Helper: every hourly point built from the forecast payload starts
with both air-quality attachments unset (`airQuality: null,
airQualitySummary: null` in the object literal). -/
theorem buildHourlyPoints_unset (hd : Option ForecastHourly) :
    ∀ p ∈ buildHourlyPoints hd, p.airQuality = none ∧ p.airQualitySummary = none := by
  intro p hp
  simp only [buildHourlyPoints] at hp
  obtain ⟨a, _, rfl⟩ := List.mem_map.mp hp
  exact ⟨rfl, rfl⟩

/-- C6: if the forecast fetch succeeds and the air-quality fetch throws,
`fetchWeatherForCoords` still returns a snapshot (the error is swallowed,
not propagated) in which every hourly point keeps both air-quality
attachments unset; and when the air-quality fetch succeeds, any hourly
point of the result whose timestamp has no exact-string-match key in the
returned map likewise keeps both attachments unset. -/
theorem fetchWeatherForCoords_aq_isolation :
    (∀ (lat lon : ℚ) (labelOverride : Option String) (data : ForecastData)
        (err : String) (now : ℤ) (nowIso : String)
        (store : Option (List WeatherCacheEntry)),
      (∀ e ∈ loadWeatherCache store now, e.key ≠ makeCoordsCacheKey lat lon) →
      ∃ w store2,
        fetchWeatherForCoords lat lon labelOverride (.ok data) (.error err)
          now nowIso store = .ok (w, store2) ∧
        ∀ p ∈ w.hourly, p.airQuality = none ∧ p.airQualitySummary = none) ∧
    (∀ (lat lon : ℚ) (labelOverride : Option String) (data : ForecastData)
        (m : List (String × AqSample)) (now : ℤ) (nowIso : String)
        (store : Option (List WeatherCacheEntry)) (w : WeatherState)
        (store2 : Option (List WeatherCacheEntry)),
      (∀ e ∈ loadWeatherCache store now, e.key ≠ makeCoordsCacheKey lat lon) →
      fetchWeatherForCoords lat lon labelOverride (.ok data) (.ok m)
        now nowIso store = .ok (w, store2) →
      ∀ p ∈ w.hourly, m.lookup p.time = none →
        p.airQuality = none ∧ p.airQualitySummary = none) := by
  constructor
  · intro lat lon labelOverride data err now nowIso store hkeys
    have hmiss := getCachedWeather_miss (makeCoordsCacheKey lat lon) store now hkeys
    refine ⟨buildWeatherState lat lon labelOverride data nowIso,
      some (setCachedWeather (makeCoordsCacheKey lat lon)
        (buildWeatherState lat lon labelOverride data nowIso) now nowIso store),
      ?_, ?_⟩
    · simp only [fetchWeatherForCoords, hmiss, mergeAirQuality]
    · intro p hp
      exact buildHourlyPoints_unset data.hourly p
        (by simpa [buildWeatherState] using hp)
  · intro lat lon labelOverride data m now nowIso store w store2 hkeys heq
    have hmiss := getCachedWeather_miss (makeCoordsCacheKey lat lon) store now hkeys
    simp only [fetchWeatherForCoords, hmiss, Except.ok.injEq, Prod.mk.injEq] at heq
    obtain ⟨hw, -⟩ := heq
    intro p hp hlk
    rw [← hw] at hp
    simp only [mergeAirQuality, buildWeatherState] at hp
    obtain ⟨q, hq, hfq⟩ := List.mem_map.mp hp
    cases hlq : List.lookup q.time m with
    | none =>
      rw [hlq] at hfq
      rw [← hfq]
      exact buildHourlyPoints_unset data.hourly q hq
    | some s =>
      rw [hlq] at hfq
      have htime : p.time = q.time := by rw [← hfq]
      rw [htime, hlq] at hlk
      exact absurd hlk (by simp)

/-- A minimal successful forecast payload with a single hourly timestamp. -/
def c6ForecastData : ForecastData :=
  { timezone := "America/Denver"
    current_weather := none
    hourly := some
      { time := some ["2025-01-01T00:00"]
        temperature_2m := some [some 5]
        apparent_temperature := none
        precipitation := none
        relative_humidity_2m := none
        wind_speed_10m := none
        wind_direction_10m := none
        wind_gusts_10m := none
        cloudcover := none
        visibility := none
        uv_index := none
        weathercode := none }
    daily := none }

/-- Witness for C6: with an empty cache, a successful forecast and a
thrown air-quality fetch, the call returns a snapshot whose hourly
points all have unset air-quality fields. -/
theorem fetchWeatherForCoords_aq_isolation_witness :
    (∀ e ∈ loadWeatherCache none 0, e.key ≠ makeCoordsCacheKey 40 105) ∧
    (∃ w store2,
      fetchWeatherForCoords 40 105 none (.ok c6ForecastData) (.error "offline")
        0 "2025-01-01T00:00:00.000Z" none = .ok (w, store2) ∧
      ∀ p ∈ w.hourly, p.airQuality = none ∧ p.airQualitySummary = none) :=
  ⟨by simp [loadWeatherCache],
    fetchWeatherForCoords_aq_isolation.1 40 105 none c6ForecastData "offline"
      0 "2025-01-01T00:00:00.000Z" none (by simp [loadWeatherCache])⟩

/-- Helper: `a || a` is `a`. -/
theorem jsOrStr_self (s : String) : jsOrStr s s = s := by
  unfold jsOrStr
  split <;> rfl

/-- Helper: a query key never collides with a coords key (the prefixes
"query:" and "coords:" differ). -/
theorem queryKey_ne_coordsKey (s : String) (lat lon : ℚ) :
    makeQueryCacheKey s ≠ makeCoordsCacheKey lat lon := by
  intro h
  have hd := congrArg String.data h
  simp only [makeQueryCacheKey, makeCoordsCacheKey, String.data_append] at hd
  have : ("query:").data = ['q', 'u', 'e', 'r', 'y', ':'] := rfl
  simp [this, show ("coords:").data = ['c', 'o', 'o', 'r', 'd', 's', ':'] from rfl]
    at hd

/-- Helper: a put whose incoming live-entry count stays within capacity
appends the new entry without sorting or trimming. -/
theorem setCachedWeather_no_evict (key : String) (w : WeatherState) (now : ℤ)
    (nowIso : String) (store : Option (List WeatherCacheEntry))
    (h : (loadWeatherCache store now).length + 1 ≤ WEATHER_CACHE_MAX_ENTRIES) :
    setCachedWeather key w now nowIso store =
      (loadWeatherCache store now).filter (fun e => !(e.key == key)) ++
        [newWeatherCacheEntry key w now nowIso] := by
  simp only [setCachedWeather]
  have hle := List.length_filter_le (fun e => !(e.key == key)) (loadWeatherCache store now)
  rw [if_neg (by
    simp only [List.length_append, List.length_cons, List.length_nil]
    omega)]

/-- Helper: both entries written by the put-under-coords-key followed by
the put-under-query-key survive in the final persisted list when the
prior cache held at most 3 entries. -/
theorem double_put_mem (Kq Kc : String) (w : WeatherState) (now : ℤ)
    (nowIso : String) (entries : List WeatherCacheEntry)
    (hkk : Kq ≠ Kc) (hwf : w.fetchedAt = nowIso) (hlen : entries.length ≤ 3) :
    (⟨Kq, nowIso, now + WEATHER_CACHE_TTL_MS, w⟩ : WeatherCacheEntry) ∈
      setCachedWeather Kq w now nowIso
        (some (setCachedWeather Kc w now nowIso (some entries))) ∧
    (⟨Kc, nowIso, now + WEATHER_CACHE_TTL_MS, w⟩ : WeatherCacheEntry) ∈
      setCachedWeather Kq w now nowIso
        (some (setCachedWeather Kc w now nowIso (some entries))) := by
  have hNq : newWeatherCacheEntry Kq w now nowIso =
      ⟨Kq, nowIso, now + WEATHER_CACHE_TTL_MS, w⟩ := by
    simp [newWeatherCacheEntry, hwf, jsOrStr_self]
  have hNc : newWeatherCacheEntry Kc w now nowIso =
      ⟨Kc, nowIso, now + WEATHER_CACHE_TTL_MS, w⟩ := by
    simp [newWeatherCacheEntry, hwf, jsOrStr_self]
  have hloadlen : (loadWeatherCache (some entries) now).length ≤ 3 :=
    le_trans (List.length_filter_le _ _) hlen
  have hput1 : setCachedWeather Kc w now nowIso (some entries) =
      (loadWeatherCache (some entries) now).filter (fun e => !(e.key == Kc)) ++
        [newWeatherCacheEntry Kc w now nowIso] :=
    setCachedWeather_no_evict Kc w now nowIso (some entries) (by
      simp only [WEATHER_CACHE_MAX_ENTRIES]
      omega)
  have hl2len : (setCachedWeather Kc w now nowIso (some entries)).length ≤ 4 := by
    rw [hput1]
    have := List.length_filter_le (fun e => !(e.key == Kc))
      (loadWeatherCache (some entries) now)
    simp only [List.length_append, List.length_cons, List.length_nil]
    omega
  have hload2len : (loadWeatherCache
      (some (setCachedWeather Kc w now nowIso (some entries))) now).length ≤ 4 :=
    le_trans (List.length_filter_le _ _) hl2len
  have hput2 : setCachedWeather Kq w now nowIso
      (some (setCachedWeather Kc w now nowIso (some entries))) =
      (loadWeatherCache (some (setCachedWeather Kc w now nowIso (some entries)))
          now).filter (fun e => !(e.key == Kq)) ++
        [newWeatherCacheEntry Kq w now nowIso] :=
    setCachedWeather_no_evict Kq w now nowIso _ (by
      simp only [WEATHER_CACHE_MAX_ENTRIES]
      omega)
  constructor
  · rw [hput2, ← hNq]
    exact List.mem_append_right _ (List.mem_singleton_self _)
  · rw [hput2]
    apply List.mem_append_left
    rw [List.mem_filter]
    refine ⟨?_, ?_⟩
    · simp only [loadWeatherCache, List.mem_filter]
      refine ⟨?_, ?_⟩
      · rw [hput1, ← hNc]
        exact List.mem_append_right _ (List.mem_singleton_self _)
      · simp only [WEATHER_CACHE_TTL_MS]
        norm_num
    · simp only [beq_iff_eq]
      simpa using fun h => hkk h.symm

/-- C10: a cache-missing `fetchWeatherForQuery` that completes
successfully persists two entries from the single fetch — one under the
normalized query key and one under the rounded coords key — both
holding the returned snapshot, and the two keys are always distinct, so
one query-driven fetch consumes two of the five capacity slots. -/
theorem fetchWeatherForQuery_two_entries :
    ∀ (query : String) (g : GeocodedLocation) (data : ForecastData)
      (aq : Except String (List (String × AqSample))) (now : ℤ) (nowIso : String)
      (entries : List WeatherCacheEntry),
      entries.length ≤ 3 →
      (∀ e ∈ entries, e.key ≠ makeQueryCacheKey query.trim) →
      (∀ e ∈ entries, e.key ≠ makeCoordsCacheKey g.lat g.lon) →
      ∃ w l,
        fetchWeatherForQuery query (.ok g) (.ok data) aq now nowIso
          (some entries) = .ok (w, some l) ∧
        (⟨makeQueryCacheKey query.trim, nowIso,
          now + WEATHER_CACHE_TTL_MS, w⟩ : WeatherCacheEntry) ∈ l ∧
        (⟨makeCoordsCacheKey g.lat g.lon, nowIso,
          now + WEATHER_CACHE_TTL_MS, w⟩ : WeatherCacheEntry) ∈ l ∧
        makeQueryCacheKey query.trim ≠ makeCoordsCacheKey g.lat g.lon := by
  intro query g data aq now nowIso entries hlen hq hc
  have hkk := queryKey_ne_coordsKey query.trim g.lat g.lon
  have hsub : ∀ e ∈ loadWeatherCache (some entries) now, e ∈ entries := by
    intro e he
    simp only [loadWeatherCache, List.mem_filter] at he
    exact he.1
  have hmissQ := getCachedWeather_miss (makeQueryCacheKey query.trim)
    (some entries) now (fun e he => hq e (hsub e he))
  have hmissC := getCachedWeather_miss (makeCoordsCacheKey g.lat g.lon)
    (some entries) now (fun e he => hc e (hsub e he))
  let W : WeatherState := { buildWeatherState g.lat g.lon (some g.label) data nowIso with
    hourly := mergeAirQuality
      (buildWeatherState g.lat g.lon (some g.label) data nowIso).hourly aq }
  refine ⟨W, setCachedWeather (makeQueryCacheKey query.trim) W now nowIso
    (some (setCachedWeather (makeCoordsCacheKey g.lat g.lon) W now nowIso
      (some entries))), ?_, ?_⟩
  · simp only [fetchWeatherForQuery, fetchWeatherForCoords, hmissQ, hmissC]
  · have hmem := double_put_mem (makeQueryCacheKey query.trim)
      (makeCoordsCacheKey g.lat g.lon) W now nowIso entries hkk rfl hlen
    exact ⟨hmem.1, hmem.2, hkk⟩

/-- Witness for C10: a fresh cache, a geocoded "Denver, CO", a successful
forecast and a failed air-quality fetch produce both persisted entries. -/
theorem fetchWeatherForQuery_two_entries_witness :
    (([] : List WeatherCacheEntry).length ≤ 3) ∧
    (∃ w l,
      fetchWeatherForQuery "Denver, CO" (.ok ⟨40, 105, "Denver, Colorado, US"⟩)
        (.ok c6ForecastData) (.error "aq down") 0 "2025-01-01T00:00:00.000Z"
        (some []) = .ok (w, some l) ∧
      (⟨makeQueryCacheKey ("Denver, CO").trim, "2025-01-01T00:00:00.000Z",
        0 + WEATHER_CACHE_TTL_MS, w⟩ : WeatherCacheEntry) ∈ l ∧
      (⟨makeCoordsCacheKey 40 105, "2025-01-01T00:00:00.000Z",
        0 + WEATHER_CACHE_TTL_MS, w⟩ : WeatherCacheEntry) ∈ l ∧
      makeQueryCacheKey ("Denver, CO").trim ≠ makeCoordsCacheKey 40 105) :=
  ⟨by simp,
    fetchWeatherForQuery_two_entries "Denver, CO" ⟨40, 105, "Denver, Colorado, US"⟩
      c6ForecastData (.error "aq down") 0 "2025-01-01T00:00:00.000Z" []
      (by simp) (by simp) (by simp)⟩

/-! ## locationApi.js: geocoding and reverse geocoding -/

/-- JS truthiness of an optional string (absent, or present but empty,
is falsy). -/
def truthyStr : Option String → Bool
  | none => false
  | some s => !(s == "")

/-- JS `a || b` on optional strings. -/
def jsOrOptStr (a b : Option String) : Option String :=
  if truthyStr a then a else b

/-- The `address` object of a Nominatim reverse-geocoding response. -/
structure NominatimAddress where
  city : Option String
  town : Option String
  village : Option String
  hamlet : Option String
  suburb : Option String
  state : Option String
  country_code : Option String
  postcode : Option String
deriving DecidableEq

/-- The label construction of `reverseGeocodeCoords` in
src/services/locationApi.js, applied to a successfully fetched and
parsed `address` record (the network/parse catch path returns null
before this logic runs):
`[city || town || village || hamlet || suburb, state,
country_code?.toUpperCase()].filter(Boolean)`, null when empty, else
joined with ", ". -/
def reverseGeocodeLabel (address : NominatimAddress) : Option String :=
  let parts := [jsOrOptStr address.city (jsOrOptStr address.town
      (jsOrOptStr address.village (jsOrOptStr address.hamlet address.suburb))),
    address.state,
    address.country_code.map String.toUpper].filter truthyStr
  if parts.length = 0 then none
  else some (String.intercalate ", " (parts.map (fun p => p.getD "")))

/-- An address record carrying only a postal code. -/
def postcodeOnlyAddress : NominatimAddress :=
  { city := none, town := none, village := none, hamlet := none,
    suburb := none, state := none, country_code := none,
    postcode := some "80202" }

/-- C8 counterexample: for a response whose address has no city-like
field but does contain a postal code, the code returns null — there is
no "Near <postal code>" fallback in locationApi.js (`postcode` is never
read). -/
theorem reverseGeocode_postcode_counterexample :
    postcodeOnlyAddress.city = none ∧ postcodeOnlyAddress.town = none ∧
    postcodeOnlyAddress.village = none ∧ postcodeOnlyAddress.hamlet = none ∧
    postcodeOnlyAddress.suburb = none ∧
    postcodeOnlyAddress.postcode = some "80202" ∧
    reverseGeocodeLabel postcodeOnlyAddress = none ∧
    reverseGeocodeLabel postcodeOnlyAddress ≠ some "Near 80202" :=
  ⟨rfl, rfl, rfl, rfl, rfl, rfl, by decide, by decide⟩

/-- C8 amended: the postal code is ignored entirely — the label is
unchanged under any postcode — and the function returns null exactly
when none of the city-like chain, the state, and the country code is
truthy, regardless of the postal code. -/
theorem reverseGeocodeLabel_amended :
    (∀ (address : NominatimAddress) (pc : Option String),
      reverseGeocodeLabel { address with postcode := pc } =
        reverseGeocodeLabel address) ∧
    (∀ address : NominatimAddress,
      reverseGeocodeLabel address = none ↔
        (truthyStr (jsOrOptStr address.city (jsOrOptStr address.town
          (jsOrOptStr address.village
            (jsOrOptStr address.hamlet address.suburb)))) = false ∧
         truthyStr address.state = false ∧
         truthyStr (address.country_code.map String.toUpper) = false)) := by
  constructor
  · intro address pc
    rfl
  · intro address
    unfold reverseGeocodeLabel
    cases h1 : truthyStr (jsOrOptStr address.city (jsOrOptStr address.town
        (jsOrOptStr address.village (jsOrOptStr address.hamlet address.suburb)))) <;>
      cases h2 : truthyStr address.state <;>
      cases h3 : truthyStr (address.country_code.map String.toUpper) <;>
      simp [List.filter, h1, h2, h3]

/-- The parsed form of a free-form location query
(`parseLocationQuery` variants). -/
inductive ParsedLocationQuery where
  | zip (zip : String)
  | city_state (city : String) (stateCode : String)
  | generic (raw : String)
deriving DecidableEq

/-- The `US_STATE_NAMES` code-to-name table of locationApi.js
(lookup of a missing code is `undefined`, i.e. `none`; the source's
`|| null` coalesces it to null). -/
def US_STATE_NAMES : String → Option String
  | "AL" => some "Alabama"
  | "AK" => some "Alaska"
  | "AZ" => some "Arizona"
  | "AR" => some "Arkansas"
  | "CA" => some "California"
  | "CO" => some "Colorado"
  | "CT" => some "Connecticut"
  | "DE" => some "Delaware"
  | "FL" => some "Florida"
  | "GA" => some "Georgia"
  | "HI" => some "Hawaii"
  | "ID" => some "Idaho"
  | "IL" => some "Illinois"
  | "IN" => some "Indiana"
  | "IA" => some "Iowa"
  | "KS" => some "Kansas"
  | "KY" => some "Kentucky"
  | "LA" => some "Louisiana"
  | "ME" => some "Maine"
  | "MD" => some "Maryland"
  | "MA" => some "Massachusetts"
  | "MI" => some "Michigan"
  | "MN" => some "Minnesota"
  | "MS" => some "Mississippi"
  | "MO" => some "Missouri"
  | "MT" => some "Montana"
  | "NE" => some "Nebraska"
  | "NV" => some "Nevada"
  | "NH" => some "New Hampshire"
  | "NJ" => some "New Jersey"
  | "NM" => some "New Mexico"
  | "NY" => some "New York"
  | "NC" => some "North Carolina"
  | "ND" => some "North Dakota"
  | "OH" => some "Ohio"
  | "OK" => some "Oklahoma"
  | "OR" => some "Oregon"
  | "PA" => some "Pennsylvania"
  | "RI" => some "Rhode Island"
  | "SC" => some "South Carolina"
  | "SD" => some "South Dakota"
  | "TN" => some "Tennessee"
  | "TX" => some "Texas"
  | "UT" => some "Utah"
  | "VT" => some "Vermont"
  | "VA" => some "Virginia"
  | "WA" => some "Washington"
  | "WV" => some "West Virginia"
  | "WI" => some "Wisconsin"
  | "WY" => some "Wyoming"
  | "DC" => some "District of Columbia"
  | _ => none

/-- The geocoding request parameters set by `geocodeLocation` per query
variant (`name`, `count`, optional `countryCode`). -/
structure GeoRequest where
  name : String
  count : ℕ
  countryCode : Option String
deriving DecidableEq

/-- Request parameters per parsed variant: ZIP is US-restricted with one
candidate, City-ST is US-restricted with up to ten, generic is
unrestricted with one. -/
def geocodeRequestParams : ParsedLocationQuery → GeoRequest
  | .zip z => ⟨z, 1, some "US"⟩
  | .city_state city _ => ⟨city, 10, some "US"⟩
  | .generic raw => ⟨raw, 1, none⟩

/-- The `desiredStateName` computed by `geocodeLocation`. -/
def desiredStateNameFor : ParsedLocationQuery → Option String
  | .city_state _ st => US_STATE_NAMES st
  | _ => none

/-- One element of the geocoding response `results[]` array.  `admin1`
is `none` when absent or not a string (the source checks
`typeof r.admin1 === "string"`). -/
structure GeoResult where
  latitude : ℚ
  longitude : ℚ
  name : String
  admin1 : Option String
  country_code : Option String
deriving DecidableEq

/-- JavaScript `toLowerCase()`, modelled as a per-character map over
the string's characters. -/
def jsToLower (s : String) : String := String.mk (s.data.map Char.toLower)

/-- The candidate-selection logic of `geocodeLocation`: the first
result, unless a desired state name is set and some result's `admin1`
matches it lowercased (`r.admin1.toLowerCase() === desiredLower`), in
which case the first such result.  `none` models the
`NotFoundError` throw on an empty result list. -/
def pickGeoResult (results : List GeoResult) (desiredStateName : Option String) :
    Option GeoResult :=
  match results with
  | [] => none
  | r0 :: _ =>
    match desiredStateName with
    | none => some r0
    | some nm =>
      match results.find? (fun r => match r.admin1 with
        | some a => jsToLower a == jsToLower nm
        | none => false) with
      | some m => some m
      | none => some r0

/-- Reference selection following the words of claim C9: the first
candidate whose region (admin1) field EQUALS the mapped full region
name; if none matches, the first candidate unmodified. -/
def pickGeoResultClaimRef (results : List GeoResult)
    (desiredStateName : Option String) : Option GeoResult :=
  match results with
  | [] => none
  | r0 :: _ =>
    match desiredStateName with
    | none => some r0
    | some nm =>
      match results.find? (fun r => r.admin1 == some nm) with
      | some m => some m
      | none => some r0

/-- Reference selection per the amended claim: equality of the admin1
field with the mapped name is tested case-insensitively (both sides
lowercased). -/
def pickGeoResultAmendedRef (results : List GeoResult)
    (desiredStateName : Option String) : Option GeoResult :=
  match results with
  | [] => none
  | r0 :: _ =>
    match desiredStateName with
    | none => some r0
    | some nm =>
      some ((results.find? (fun r =>
        (r.admin1.map jsToLower) == some (jsToLower nm))).getD r0)

/-- A first candidate in the wrong state. -/
def geoTexas : GeoResult :=
  { latitude := 1, longitude := 2, name := "Austin",
    admin1 := some "Texas", country_code := some "US" }

/-- A second candidate whose admin1 matches "Colorado" only up to case. -/
def geoColoradoOddCase : GeoResult :=
  { latitude := 3, longitude := 4, name := "Denver",
    admin1 := some "cOlOrAdO", country_code := some "US" }

/-- C9 counterexample: for the code "CO" (table name "Colorado") the code
selects the candidate whose admin1 is "cOlOrAdO" — the comparison is
case-insensitive — while the claim's selects-by-equality rule would fall
back to the first candidate; the two picks differ. -/
theorem pickGeoResult_case_counterexample :
    US_STATE_NAMES "CO" = some "Colorado" ∧
    pickGeoResult [geoTexas, geoColoradoOddCase] (US_STATE_NAMES "CO") =
      some geoColoradoOddCase ∧
    pickGeoResultClaimRef [geoTexas, geoColoradoOddCase] (US_STATE_NAMES "CO") =
      some geoTexas ∧
    geoColoradoOddCase ≠ geoTexas :=
  ⟨rfl, by decide, by decide, by decide⟩

/-- C9 amended: a City-ST query requests up to ten US-restricted
candidates; the desired state name comes from the fixed table; and the
selection takes the first candidate whose admin1 equals the mapped full
region name under case-insensitive comparison, else the first candidate
unmodified (also when the code has no table entry). -/
theorem geocode_city_state_selection :
    (∀ city st, geocodeRequestParams (.city_state city st) = ⟨city, 10, some "US"⟩) ∧
    (∀ city st, desiredStateNameFor (.city_state city st) = US_STATE_NAMES st) ∧
    (∀ results desired,
      pickGeoResult results desired = pickGeoResultAmendedRef results desired) := by
  refine ⟨fun city st => rfl, fun city st => rfl, ?_⟩
  intro results desired
  cases results with
  | nil => rfl
  | cons r0 rest =>
    cases desired with
    | none => rfl
    | some nm =>
      simp only [pickGeoResult, pickGeoResultAmendedRef]
      have hpred : (fun r : GeoResult => match r.admin1 with
          | some a => jsToLower a == jsToLower nm
          | none => false) =
          (fun r : GeoResult => (r.admin1.map jsToLower) == some (jsToLower nm)) := by
        funext r
        cases r.admin1 with
        | none => simp
        | some a => simp
      rw [hpred]
      cases hfind : (r0 :: rest).find?
          (fun r : GeoResult => (r.admin1.map jsToLower) == some (jsToLower nm)) with
      | none => simp [hfind]
      | some m => simp [hfind]
